import Mathlib

/-
  Shallow embedding of the telemetry-capture core of the repository:
  - services/indexedDB.ts  (initDB, getDB, addLogEntry, getAllLogs, clearAllLogs)
  - services/logger.ts     (listeners, notifyListeners, saveLog, Logger, initGlobalLogger)
  - context/LoggerContext (logError) and the console-call argument handling.

  JavaScript is single threaded; "concurrent" calls are interleavings of the
  synchronous parts of async functions.  Promises are modelled explicitly as a
  settlement state; the environment (does the engine open, does a transaction
  commit) enters as explicit parameters of the operations.
-/

/-- Model of a JavaScript runtime value, covering the shapes the logger
handles: primitives, Error instances (message plus optional stack) and
structured objects/arrays. -/
inductive JSValue where
  | vString (s : String)
  | vNumber (n : Int)
  | vBool (b : Bool)
  | vUndefined
  | vNull
  | vError (message : String) (stack : Option String)
  | vObject (fields : List (String × JSValue))
  | vArray (items : List JSValue)

/-- Model of JavaScript String(x) coercion for the shapes above. -/
def jsToString : JSValue → String
  | .vString s => s
  | .vNumber n => toString n
  | .vBool b => if b then "true" else "false"
  | .vUndefined => "undefined"
  | .vNull => "null"
  | .vError m _ => "Error: " ++ m
  | .vObject _ => "[object Object]"
  | .vArray _ => ""

/-- Model of JavaScript truthiness for the shapes above. -/
def jsTruthy : JSValue → Bool
  | .vString s => s ≠ ""
  | .vNumber n => n ≠ 0
  | .vBool b => b
  | .vUndefined => false
  | .vNull => false
  | .vError _ _ => true
  | .vObject _ => true
  | .vArray _ => true

/-- LogLevel enum from types.ts. -/
inductive LogLevel where
  | INFO
  | WARN
  | ERROR
deriving DecidableEq, Repr

/-- Omit LogEntry id: the draft handed to addLogEntry before the store
assigns an id (timestamp in ms, level, message, optional stackTrace,
optional metadata). -/
structure LogDraft where
  timestamp : Nat
  level : LogLevel
  message : String
  stackTrace : Option String
  metadata : Option JSValue

/-- LogEntry from types.ts as persisted: the draft fields plus the
store-assigned id. -/
structure StoredEntry where
  id : Nat
  timestamp : Nat
  level : LogLevel
  message : String
  stackTrace : Option String
  metadata : Option JSValue

/-- Attach the store-assigned autoIncrement key to a draft. -/
def draftWithId (d : LogDraft) (i : Nat) : StoredEntry :=
  { id := i, timestamp := d.timestamp, level := d.level, message := d.message
    stackTrace := d.stackTrace, metadata := d.metadata }

/-
  services/indexedDB.ts: module-level singleton state
    let dbInstance: IDBDatabase | null = null;
    let initPromise: Promise<void> | null = null;
  The promise is modelled by its settlement state.  openCount counts the
  calls of indexedDB.open (the underlying engine opens).
-/

/-- Settlement state of the stored initPromise. -/
inductive PromiseState where
  | pending
  | resolvedP
  | rejectedP (e : String)
deriving DecidableEq, Repr

/-- State of the services/indexedDB.ts module: whether dbInstance is set,
the stored initPromise (none when null), how many engine opens were
triggered, the persisted records, and the autoIncrement key generator
(IndexedDB generators start at 1 and survive store.clear()). -/
structure DBState where
  dbOpen : Bool
  initPromise : Option PromiseState
  openCount : Nat
  records : List StoredEntry
  nextId : Nat

/-- The module state before any call: both singleton variables null, no
records, generator at 1. -/
def freshDB : DBState :=
  { dbOpen := false, initPromise := none, openCount := 0, records := [], nextId := 1 }

/-- What a caller of initDB receives. -/
inductive InitResult where
  | resolvedNow
  | existingPromise
  | newPromise
deriving DecidableEq, Repr

/-- Synchronous part of initDB: if dbInstance is set, return a resolved
promise; else if initPromise is stored, return that same promise; else
create a pending promise, store it and start one engine open. -/
def initDB (s : DBState) : InitResult × DBState :=
  if s.dbOpen then (.resolvedNow, s)
  else
    match s.initPromise with
    | some _ => (.existingPromise, s)
    | none =>
        (.newPromise,
          { s with initPromise := some .pending, openCount := s.openCount + 1 })

/-- Iterate initDB n times with no intervening settlement: the model of n
overlapping (interleaved) initialize calls. -/
def initDBIter : Nat → DBState → DBState
  | 0, s => s
  | n + 1, s => initDBIter n (initDB s).2

/-- Environment event: the open request succeeds; request.onsuccess sets
dbInstance and resolves the promise. -/
def settleSuccess (s : DBState) : DBState :=
  { s with dbOpen := true, initPromise := some .resolvedP }

/-- Environment event: the open request fails; request.onerror rejects the
promise with the string below, and dbInstance stays null.  Nothing ever
clears initPromise back to null. -/
def settleFailure (s : DBState) : DBState :=
  { s with initPromise := some (.rejectedP "Failed to open database") }

/-- Does the underlying engine open succeed, for the case an operation has
to trigger or await an open itself. -/
inductive OpenOutcome where
  | openOk
  | openFail
deriving DecidableEq, Repr

/-- Completed behaviour of getDB: if dbInstance is set, use it; otherwise
await initDB() (joining the stored promise, or starting one fresh open
whose outcome the environment decides), then fail with the rejection, or
with the guard throw when dbInstance is still null afterwards. -/
def getDB (env : OpenOutcome) (s : DBState) : Except String Unit × DBState :=
  if s.dbOpen then (.ok (), s)
  else
    match s.initPromise, env with
    | some (.rejectedP e), _ => (.error e, s)
    | some .resolvedP, _ => (.error "Database not initialized", s)
    | some .pending, .openOk =>
        (.ok (), { s with dbOpen := true, initPromise := some .resolvedP })
    | some .pending, .openFail =>
        (.error "Failed to open database",
          { s with initPromise := some (.rejectedP "Failed to open database") })
    | none, .openOk =>
        (.ok (),
          { s with dbOpen := true, initPromise := some .resolvedP
                   openCount := s.openCount + 1 })
    | none, .openFail =>
        (.error "Failed to open database",
          { s with initPromise := some (.rejectedP "Failed to open database")
                   openCount := s.openCount + 1 })

/-- Completed behaviour of addLogEntry: ensure the db (getDB), then run a
readwrite transaction with store.add(entry); on commit the autoIncrement
generator assigns the key and the record is appended; on abort the state is
unchanged and the promise rejects. -/
def addLogEntry (env : OpenOutcome) (txnOk : Bool) (d : LogDraft) (s : DBState) :
    Except String Nat × DBState :=
  match getDB env s with
  | (.error e, s1) => (.error e, s1)
  | (.ok _, s1) =>
      if txnOk then
        (.ok s1.nextId,
          { s1 with records := s1.records ++ [draftWithId d s1.nextId]
                    nextId := s1.nextId + 1 })
      else (.error "write transaction aborted", s1)

/-- Iteration order of the timestamp index cursor opened with direction
prev: the index sorts records by (timestamp, primary key) ascending, and
prev walks it backwards, so record a is emitted before record b exactly
when (a.timestamp, a.id) is lexicographically larger. -/
def entryLe (a b : StoredEntry) : Prop :=
  b.timestamp < a.timestamp ∨ (b.timestamp = a.timestamp ∧ b.id ≤ a.id)

instance : DecidableRel entryLe := fun a b => by unfold entryLe; infer_instance

instance : IsTotal StoredEntry entryLe where
  total a b := by unfold entryLe; omega

instance : IsTrans StoredEntry entryLe where
  trans a b c := by unfold entryLe; omega

/-- The record sequence produced by walking the timestamp index with a
prev cursor and pushing every cursor.value. -/
def scanRecords (rs : List StoredEntry) : List StoredEntry :=
  List.insertionSort entryLe rs

/-- Completed behaviour of getAllLogs: ensure the db, then a readonly
transaction walking the timestamp index newest first; on failure the
promise rejects with the request error. -/
def getAllLogs (env : OpenOutcome) (txnOk : Bool) (s : DBState) :
    Except String (List StoredEntry) × DBState :=
  match getDB env s with
  | (.error e, s1) => (.error e, s1)
  | (.ok _, s1) =>
      if txnOk then (.ok (scanRecords s1.records), s1)
      else (.error "read transaction aborted", s1)

/-- Completed behaviour of clearAllLogs: ensure the db, then store.clear()
in a readwrite transaction.  Clearing removes every record but does not
reset the autoIncrement key generator. -/
def clearAllLogs (env : OpenOutcome) (txnOk : Bool) (s : DBState) :
    Except String Unit × DBState :=
  match getDB env s with
  | (.error e, s1) => (.error e, s1)
  | (.ok _, s1) =>
      if txnOk then (.ok (), { s1 with records := [] })
      else (.error "write transaction aborted", s1)

/-
  services/logger.ts: the interception adapters (argument handling of the
  patched console.log / console.warn / console.error), the console channel
  state mutated by initGlobalLogger, and the listener registry.
-/

/-- Argument handling shared by the patched console.log and console.warn:
message is String(args[0]) when args[0] is truthy and the empty string
otherwise, metadata is args.slice(1) when more than one argument was
passed, stackTrace is never set. -/
def interceptArgsBasic (level : LogLevel) (args : List JSValue) (now : Nat) : LogDraft :=
  let first := args.headD JSValue.vUndefined
  { timestamp := now
    level := level
    message := if jsTruthy first then jsToString first else ""
    stackTrace := none
    metadata := if args.length > 1 then some (JSValue.vArray (args.drop 1)) else none }

/-- Argument handling of the patched console.error: when args[0] is an
Error instance, message is its message and stack its stack; otherwise
message is String(args[0]) with no stack; metadata is args.slice(1) when
more than one argument was passed. -/
def interceptErrorArgs (args : List JSValue) (now : Nat) : LogDraft :=
  let first := args.headD JSValue.vUndefined
  let metadata :=
    if args.length > 1 then some (JSValue.vArray (args.drop 1)) else none
  match first with
  | JSValue.vError m st =>
      { timestamp := now, level := .ERROR, message := m, stackTrace := st
        metadata := metadata }
  | _ =>
      { timestamp := now, level := .ERROR, message := jsToString first
        stackTrace := none, metadata := metadata }

/-- Input of logError in LoggerContext: Error | string. -/
inductive ErrorOrString where
  | err (message : String) (stack : Option String)
  | str (s : String)

/-- logError from LoggerContext: an Error instance contributes its message
and stack, a plain string is the message itself with no stack; the record
is persisted at ERROR level with the given metadata. -/
def logErrorDraft (e : ErrorOrString) (metadata : Option JSValue) (now : Nat) : LogDraft :=
  match e with
  | .err m st =>
      { timestamp := now, level := .ERROR, message := m, stackTrace := st
        metadata := metadata }
  | .str s =>
      { timestamp := now, level := .ERROR, message := s, stackTrace := none
        metadata := metadata }

/-- A console channel function: either a native browser implementation or
a wrapper installed by initGlobalLogger around an inner function. -/
inductive ConsoleFn where
  | native (name : String)
  | wrapped (level : LogLevel) (inner : ConsoleFn)
deriving DecidableEq, Repr

/-- The mutable console object: the three patched channels, console.info,
and the two stashed properties console._originalLog and
console._originalError. -/
structure ConsoleState where
  log : ConsoleFn
  warn : ConsoleFn
  error : ConsoleFn
  info : ConsoleFn
  origLogProp : Option ConsoleFn
  origErrorProp : Option ConsoleFn
deriving DecidableEq, Repr

/-- The console before any interception is installed. -/
def freshConsole : ConsoleState :=
  { log := .native "log", warn := .native "warn", error := .native "error"
    info := .native "info", origLogProp := none, origErrorProp := none }

/-- initGlobalLogger: snapshot the current log/warn/error into
originalConsole, stash log and error on the console object, and replace
the three channels with wrappers that forward to the snapshot and then
call saveLog at the channel's level.  There is no guard: running it again
wraps the wrappers. -/
def initGlobalLogger (c : ConsoleState) : ConsoleState :=
  { c with
    log := .wrapped .INFO c.log
    warn := .wrapped .WARN c.warn
    error := .wrapped .ERROR c.error
    origLogProp := some c.log
    origErrorProp := some c.error }

/-- How many interception wrappers a channel function carries; each
wrapper layer issues exactly one saveLog call per invocation. -/
def interceptionLayers : ConsoleFn → Nat
  | .native _ => 0
  | .wrapped _ inner => interceptionLayers inner + 1

/-- Calling a console channel: a wrapper first applies the snapshot it
closed over (the inner function), then normalizes the arguments at its
level and hands one draft to saveLog; a native function persists nothing.
The result is the list of drafts handed to saveLog, in call order. -/
def callChannel : ConsoleFn → List JSValue → Nat → List LogDraft
  | .native _, _, _ => []
  | .wrapped lvl inner, args, now =>
      callChannel inner args now ++
        [match lvl with
         | .ERROR => interceptErrorArgs args now
         | l => interceptArgsBasic l args now]

/-- Failure channel of saveLog's catch block: it reports through
console._originalError when that property is set (the snapshot taken
before interception), and stays silent otherwise. -/
def saveLogFailureChannel (c : ConsoleState) : Option ConsoleFn :=
  c.origErrorProp

/-- Failure channel of notifyListeners' catch block: it calls
console.warn, i.e. whatever function the warn channel currently holds. -/
def notifyFailureChannel (c : ConsoleState) : ConsoleFn :=
  c.warn

/-- A channel re-enters the interception layer when calling it reaches at
least one wrapper (and hence saveLog). -/
def reentersInterception (f : ConsoleFn) : Bool :=
  interceptionLayers f ≠ 0

/-
  services/logger.ts: listener registry and the persist-and-notify
  sequence.  The registry is a JS Set of callbacks: insertion ordered,
  duplicate-free; add is a no-op on a present element, delete on an absent
  one.  Listeners are identified by an id.
-/

/-- Identifier of a registered listener callback. -/
abbrev ListenerId := Nat

/-- JS Set.add on the insertion-ordered element list. -/
def addListener (i : ListenerId) (l : List ListenerId) : List ListenerId :=
  if i ∈ l then l else l ++ [i]

/-- JS Set.delete on the insertion-ordered element list. -/
def removeListener (i : ListenerId) (l : List ListenerId) : List ListenerId :=
  l.filter (fun j => j ≠ i)

/-- State of the module-level listeners set. -/
structure HubState where
  listeners : List ListenerId
deriving DecidableEq, Repr

/-- One invocation of a listener callback with the freshly scanned log
set. -/
structure Delivery where
  target : ListenerId
  logs : List StoredEntry

/-- notifyListeners: getAllLogs, then invoke every registered listener
with the result; if the scan fails, nobody is invoked and the failure is
reported through console.warn (see notifyFailureChannel). -/
def notifyListeners (scanOk : Bool) (s : DBState) (h : HubState) : List Delivery :=
  match (getAllLogs .openOk scanOk s).1 with
  | .ok logs => h.listeners.map (fun i => { target := i, logs := logs })
  | .error _ => []

/-- Logger.subscribe: add the listener to the set, immediately start a
getAllLogs whose result is delivered to this listener alone (nothing is
delivered if that scan fails), and hand back the closure that deletes the
listener.  The returned unsubscribe closure is modelled by the
unsubscribe function below. -/
def subscribe (i : ListenerId) (h : HubState) (s : DBState) :
    HubState × Option Delivery :=
  let h1 : HubState := { listeners := addListener i h.listeners }
  match (getAllLogs .openOk true s).1 with
  | .ok logs => (h1, some { target := i, logs := logs })
  | .error _ => (h1, none)

/-- The closure returned by Logger.subscribe: listeners.delete(listener). -/
def unsubscribe (i : ListenerId) (h : HubState) : HubState :=
  { listeners := removeListener i h.listeners }

/-- A mutation event reaching the store, with the environment's verdict on
its write transaction. -/
inductive SysEvent where
  | insertEv (txnOk : Bool) (d : LogDraft)
  | clearEv (txnOk : Bool)

/-- One mutation step of the system.  saveLog: addLogEntry, on success
fire notifyListeners (on failure the catch reports and nothing is
notified).  Logger.clear: clearAllLogs then notifyListeners (a rejected
clear propagates before notifying).  The listener set itself is never
changed by a mutation. -/
def stepSys (st : DBState × HubState) (ev : SysEvent) :
    (DBState × HubState) × List Delivery :=
  match ev with
  | .insertEv t d =>
      match addLogEntry .openOk t d st.1 with
      | (.ok _, s1) => ((s1, st.2), notifyListeners true s1 st.2)
      | (.error _, s1) => ((s1, st.2), [])
  | .clearEv t =>
      match clearAllLogs .openOk t st.1 with
      | (.ok _, s1) => ((s1, st.2), notifyListeners true s1 st.2)
      | (.error _, s1) => ((s1, st.2), [])

/-- Run a sequence of mutation events, collecting every listener
invocation that happens along the way. -/
def runSys (st : DBState × HubState) : List SysEvent → (DBState × HubState) × List Delivery
  | [] => (st, [])
  | ev :: rest =>
      let (st1, ds) := stepSys st ev
      let (st2, ds') := runSys st1 rest
      (st2, ds ++ ds')

/-- A store operation together with the environment's verdict on its
transaction, for tracing the ids the store hands out. -/
inductive StoreOp where
  | addOp (txnOk : Bool) (d : LogDraft)
  | clearOp (txnOk : Bool)

/-- Run a sequence of store operations against a working engine and
collect the ids returned by the successful inserts, in order. -/
def runOps (s : DBState) : List StoreOp → DBState × List Nat
  | [] => (s, [])
  | .addOp t d :: rest =>
      match addLogEntry .openOk t d s with
      | (.ok i, s1) =>
          let (s2, is) := runOps s1 rest
          (s2, i :: is)
      | (.error _, s1) => runOps s1 rest
  | .clearOp t :: rest => runOps (clearAllLogs .openOk t s).2 rest

/-- A ready store with a working connection, no records and a fresh key
generator: the state right after the first successful initialization. -/
def readyFreshDB : DBState :=
  { dbOpen := true, initPromise := some .resolvedP, openCount := 1
    records := [], nextId := 1 }

/-
  Demonstration states used by witnesses.
-/

/-- A minimal stored record with the given id and timestamp. -/
def demoEntry (i ts : Nat) : StoredEntry :=
  { id := i, timestamp := ts, level := .INFO, message := "m"
    stackTrace := none, metadata := none }

/-- A ready store holding three records, two of them sharing a timestamp. -/
def demoDB : DBState :=
  { dbOpen := true, initPromise := some .resolvedP, openCount := 1
    records := [demoEntry 1 10, demoEntry 2 5, demoEntry 3 10], nextId := 4 }

/-- A draft used by the witnesses. -/
def demoDraft : LogDraft :=
  { timestamp := 5, level := .INFO, message := "m", stackTrace := none, metadata := none }

/-- The module state after the first initialization attempt rejected. -/
def failedDemo : DBState :=
  settleFailure (initDB freshDB).2

/-
  Helper lemmas.
-/

/-- getDB never touches the records or the key generator. -/
theorem getDB_preserves (env : OpenOutcome) (s : DBState) :
    ((getDB env s).2).nextId = s.nextId ∧ ((getDB env s).2).records = s.records := by
  obtain ⟨o, ip, oc, rs, ni⟩ := s
  cases o <;> cases env <;> rcases ip with _ | (_ | _ | e) <;> simp [getDB]

/-- Once a promise is stored and the connection is not yet set, initDB just
returns that promise and changes nothing. -/
theorem initDB_stable (s : DBState) (p : PromiseState)
    (h1 : s.dbOpen = false) (h2 : s.initPromise = some p) :
    initDB s = (.existingPromise, s) := by
  simp [initDB, h1, h2]

/-- Iterating initDB from such a state changes nothing either. -/
theorem initDBIter_stable (n : Nat) (s : DBState) (p : PromiseState)
    (h1 : s.dbOpen = false) (h2 : s.initPromise = some p) :
    initDBIter n s = s := by
  induction n with
  | zero => rfl
  | succ k ih => simp [initDBIter, initDB_stable s p h1 h2, ih]

/-- C2: initDB is idempotent: with a connection set it returns a resolved
promise at once and changes nothing; with an initialization in flight every
caller gets that same stored promise; and any number of overlapping calls
from the fresh module state trigger exactly one engine open, all calls
after the first receiving the stored promise. -/
theorem initDB_idempotent_single_open :
    (∀ s : DBState, s.dbOpen = true → initDB s = (.resolvedNow, s)) ∧
    (∀ (s : DBState) (p : PromiseState), s.dbOpen = false → s.initPromise = some p →
      initDB s = (.existingPromise, s)) ∧
    (∀ n : Nat, (initDBIter (n + 1) freshDB).openCount = 1) ∧
    (∀ n : Nat, (initDB (initDBIter (n + 1) freshDB)).1 = .existingPromise) := by
  have hfresh : (initDB freshDB).2 =
      { freshDB with initPromise := some .pending, openCount := 1 } := by
    simp [initDB, freshDB]
  have hiter : ∀ n : Nat, initDBIter (n + 1) freshDB =
      { freshDB with initPromise := some .pending, openCount := 1 } := by
    intro n
    show initDBIter n (initDB freshDB).2 = _
    rw [hfresh]
    exact initDBIter_stable n _ .pending rfl rfl
  refine ⟨fun s h => by simp [initDB, h], fun s p h1 h2 => initDB_stable s p h1 h2,
    fun n => by rw [hiter n], fun n => by rw [hiter n]; rfl⟩

/-- Witness for C2 at concrete inputs: three overlapping calls from the
fresh state open the engine once, and a call with the connection set
returns immediately without touching the state. -/
theorem initDB_idempotent_single_open_witness :
    (initDBIter 3 freshDB).openCount = 1 ∧
    (settleSuccess freshDB).dbOpen = true ∧
    initDB (settleSuccess freshDB) = (.resolvedNow, settleSuccess freshDB) ∧
    (initDB (initDBIter 3 freshDB)).1 = .existingPromise :=
  ⟨initDB_idempotent_single_open.2.2.1 2, rfl,
   initDB_idempotent_single_open.1 (settleSuccess freshDB) rfl,
   initDB_idempotent_single_open.2.2.2 2⟩

/-- C1: on a live store, getAllLogs returns all persisted records (a
permutation of the store contents), ordered by descending timestamp, it
leaves the store unchanged, and an immediately repeated scan of the
unchanged store returns the identical sequence (the prev-cursor walk of
the timestamp index is deterministic, ties resolved by descending primary
key). -/
theorem getAllLogs_ordered_stable (s : DBState) (hOpen : s.dbOpen = true) :
    (getAllLogs .openOk true s).1 = .ok (scanRecords s.records) ∧
    (getAllLogs .openOk true s).2 = s ∧
    (scanRecords s.records).Perm s.records ∧
    (scanRecords s.records).Pairwise (fun a b => b.timestamp ≤ a.timestamp) ∧
    (getAllLogs .openOk true ((getAllLogs .openOk true s).2)).1 =
      (getAllLogs .openOk true s).1 := by
  have hget : getDB .openOk s = (.ok (), s) := by simp [getDB, hOpen]
  have h1 : getAllLogs .openOk true s = (.ok (scanRecords s.records), s) := by
    simp [getAllLogs, hget]
  refine ⟨by rw [h1], by rw [h1], List.perm_insertionSort entryLe s.records, ?_,
    by rw [h1]; exact congrArg Prod.fst h1⟩
  exact (List.sorted_insertionSort entryLe s.records).imp (fun hab => by
    rcases hab with hlt | ⟨heq, _⟩
    · exact Nat.le_of_lt hlt
    · exact Nat.le_of_eq heq)

/-- Witness for C1 on a concrete store with a timestamp tie: the scan
succeeds with the sorted sequence, newest first, ties by descending id. -/
theorem getAllLogs_ordered_stable_witness :
    demoDB.dbOpen = true ∧
    (getAllLogs .openOk true demoDB).1 = .ok (scanRecords demoDB.records) ∧
    scanRecords demoDB.records = [demoEntry 3 10, demoEntry 1 10, demoEntry 2 5] :=
  ⟨rfl, (getAllLogs_ordered_stable demoDB rfl).1, rfl⟩

/-- C10: once the first initialization attempt has rejected (dbInstance
null, stored promise rejected), the promise is never cleared or retried:
initDB keeps returning the same rejected promise, and every insert, scan
and clear fails with that same initialization error, leaving the state
unchanged — so the condition persists for the rest of the process. -/
theorem failed_init_poisons_store (s : DBState) (e : String)
    (h1 : s.dbOpen = false) (h2 : s.initPromise = some (.rejectedP e)) :
    ∀ (env : OpenOutcome) (t : Bool) (d : LogDraft),
      initDB s = (.existingPromise, s) ∧
      addLogEntry env t d s = (.error e, s) ∧
      getAllLogs env t s = (.error e, s) ∧
      clearAllLogs env t s = (.error e, s) := by
  intro env t d
  have hget : getDB env s = (.error e, s) := by
    cases env <;> simp [getDB, h1, h2]
  exact ⟨initDB_stable s _ h1 h2, by simp [addLogEntry, hget],
    by simp [getAllLogs, hget], by simp [clearAllLogs, hget]⟩

/-- Witness for C10 at the concrete state reached by a failed first
initialization: an insert, a scan and a clear all reject with the stored
failure, and the state is untouched. -/
theorem failed_init_poisons_store_witness :
    failedDemo.dbOpen = false ∧
    failedDemo.initPromise = some (.rejectedP "Failed to open database") ∧
    addLogEntry .openOk true demoDraft failedDemo =
      (.error "Failed to open database", failedDemo) ∧
    getAllLogs .openOk true failedDemo = (.error "Failed to open database", failedDemo) :=
  ⟨rfl, rfl,
   (failed_init_poisons_store failedDemo _ rfl rfl .openOk true demoDraft).2.1,
   (failed_init_poisons_store failedDemo _ rfl rfl .openOk true demoDraft).2.2.1⟩

/-- A successful insert returns the current key-generator value and bumps
the generator by one. -/
theorem addLogEntry_ok_facts {env : OpenOutcome} {t : Bool} {d : LogDraft}
    {s : DBState} {i : Nat} {s' : DBState}
    (h : addLogEntry env t d s = (.ok i, s')) :
    i = s.nextId ∧ s'.nextId = s.nextId + 1 := by
  rcases hget : getDB env s with ⟨res, s1⟩
  have hs1 : s1.nextId = s.nextId := by
    have hp := (getDB_preserves env s).1
    rw [hget] at hp
    exact hp
  cases res with
  | error e => simp [addLogEntry, hget] at h
  | ok u =>
    cases t with
    | false => simp [addLogEntry, hget] at h
    | true =>
      simp [addLogEntry, hget] at h
      obtain ⟨h1, h2⟩ := h
      constructor
      · omega
      · rw [← h2]
        simp
        omega

/-- A failed insert leaves the key generator where it was. -/
theorem addLogEntry_error_nextId {env : OpenOutcome} {t : Bool} {d : LogDraft}
    {s : DBState} {e : String} {s' : DBState}
    (h : addLogEntry env t d s = (.error e, s')) :
    s'.nextId = s.nextId := by
  rcases hget : getDB env s with ⟨res, s1⟩
  have hs1 : s1.nextId = s.nextId := by
    have hp := (getDB_preserves env s).1
    rw [hget] at hp
    exact hp
  cases res with
  | error e2 =>
    simp [addLogEntry, hget] at h
    rw [← h.2]
    exact hs1
  | ok u =>
    cases t with
    | false =>
      simp [addLogEntry, hget] at h
      rw [← h.2]
      exact hs1
    | true => simp [addLogEntry, hget] at h

/-- Clearing never touches the key generator (the autoIncrement sequence
survives store.clear()). -/
theorem clearAllLogs_nextId (env : OpenOutcome) (t : Bool) (s : DBState) :
    ((clearAllLogs env t s).2).nextId = s.nextId := by
  rcases hget : getDB env s with ⟨res, s1⟩
  have hs1 : s1.nextId = s.nextId := by
    have hp := (getDB_preserves env s).1
    rw [hget] at hp
    exact hp
  cases res with
  | error e => simp [clearAllLogs, hget, hs1]
  | ok u => cases t <;> simp [clearAllLogs, hget, hs1]

/-- Every id a trace hands out is at least the starting generator value,
and the handed-out ids are strictly increasing in issue order. -/
theorem runOps_ids (ops : List StoreOp) : ∀ s : DBState,
    (∀ i ∈ (runOps s ops).2, s.nextId ≤ i) ∧
    (runOps s ops).2.Pairwise (· < ·) := by
  induction ops with
  | nil => intro s; exact ⟨by simp [runOps], by simp [runOps]⟩
  | cons op rest ih =>
    intro s
    cases op with
    | clearOp t =>
      have hrun : runOps s (.clearOp t :: rest) =
          runOps (clearAllLogs .openOk t s).2 rest := rfl
      have hn := clearAllLogs_nextId .openOk t s
      obtain ⟨hb, hp⟩ := ih (clearAllLogs .openOk t s).2
      rw [hrun]
      exact ⟨fun i hi => hn ▸ hb i hi, hp⟩
    | addOp t d =>
      rcases hadd : addLogEntry .openOk t d s with ⟨res, s'⟩
      cases res with
      | error e =>
        have hrun : runOps s (.addOp t d :: rest) = runOps s' rest := by
          simp [runOps, hadd]
        have hn := addLogEntry_error_nextId hadd
        obtain ⟨hb, hp⟩ := ih s'
        rw [hrun]
        exact ⟨fun i hi => hn ▸ hb i hi, hp⟩
      | ok u =>
        have hrun : runOps s (.addOp t d :: rest) =
            ((runOps s' rest).1, u :: (runOps s' rest).2) := by
          simp [runOps, hadd]
        obtain ⟨hu, hn⟩ := addLogEntry_ok_facts hadd
        obtain ⟨hb, hp⟩ := ih s'
        rw [hrun]
        constructor
        · intro i hi
          rcases List.mem_cons.mp hi with rfl | hi2
          · omega
          · have := hb i hi2; omega
        · refine List.pairwise_cons.mpr ⟨fun j hj => ?_, hp⟩
          have := hb j hj; omega

/-- C7: over any lifetime of the store (any sequence of inserts and
clears, from any state), the ids returned by the successful inserts are
strictly increasing in issue order and pairwise distinct; concretely,
insert, insert, clear, insert from a fresh store hands out 1, 2, 3 — the
insert after the clear gets an id fresh with respect to every earlier one. -/
theorem insert_ids_unique_monotone :
    (∀ (s : DBState) (ops : List StoreOp),
      (runOps s ops).2.Pairwise (· < ·) ∧ (runOps s ops).2.Nodup) ∧
    (runOps readyFreshDB
      [.addOp true demoDraft, .addOp true demoDraft, .clearOp true,
       .addOp true demoDraft]).2 = [1, 2, 3] := by
  refine ⟨fun s ops => ?_, rfl⟩
  have hp := (runOps_ids ops s).2
  exact ⟨hp, hp.imp fun hab => Nat.ne_of_lt hab⟩

/-- Set.add makes the element a member. -/
theorem mem_addListener (i : ListenerId) (l : List ListenerId) :
    i ∈ addListener i l := by
  unfold addListener
  by_cases h : i ∈ l <;> simp [h]

/-- Set.delete removes the element. -/
theorem not_mem_removeListener (i : ListenerId) (l : List ListenerId) :
    i ∉ removeListener i l := by
  unfold removeListener
  simp

/-- Every delivery of notifyListeners goes to a currently registered
listener. -/
theorem notifyListeners_targets (ok : Bool) (s : DBState) (h : HubState) :
    ∀ d ∈ notifyListeners ok s h, d.target ∈ h.listeners := by
  intro d hd
  unfold notifyListeners at hd
  rcases hres : (getAllLogs .openOk ok s).1 with e | logs <;> rw [hres] at hd
  · simp at hd
  · obtain ⟨i, hi, rfl⟩ := List.mem_map.mp hd
    exact hi

/-- Mutations never change the listener set. -/
theorem stepSys_hub (st : DBState × HubState) (ev : SysEvent) :
    ((stepSys st ev).1).2 = st.2 := by
  cases ev with
  | insertEv t d =>
    rcases h : addLogEntry .openOk t d st.1 with ⟨res, s1⟩
    cases res <;> simp [stepSys, h]
  | clearEv t =>
    rcases h : clearAllLogs .openOk t st.1 with ⟨res, s1⟩
    cases res <;> simp [stepSys, h]

/-- Every delivery of a mutation step targets a registered listener. -/
theorem stepSys_targets (st : DBState × HubState) (ev : SysEvent) :
    ∀ d ∈ (stepSys st ev).2, d.target ∈ st.2.listeners := by
  cases ev with
  | insertEv t d =>
    rcases h : addLogEntry .openOk t d st.1 with ⟨res, s1⟩
    cases res with
    | ok u =>
      intro d2 hd2
      simp [stepSys, h] at hd2
      exact notifyListeners_targets true s1 st.2 d2 hd2
    | error e => intro d2 hd2; simp [stepSys, h] at hd2
  | clearEv t =>
    rcases h : clearAllLogs .openOk t st.1 with ⟨res, s1⟩
    cases res with
    | ok u =>
      intro d2 hd2
      simp [stepSys, h] at hd2
      exact notifyListeners_targets true s1 st.2 d2 hd2
    | error e => intro d2 hd2; simp [stepSys, h] at hd2

/-- If a listener is not registered, no run of mutation events ever
delivers to it. -/
theorem runSys_avoids (i : ListenerId) (evs : List SysEvent) :
    ∀ (s : DBState) (h : HubState), i ∉ h.listeners →
      ∀ d ∈ (runSys (s, h) evs).2, d.target ≠ i := by
  induction evs with
  | nil => intro s h hmem d hd; simp [runSys] at hd
  | cons ev rest ih =>
    intro s h hmem d hd
    have hstep := stepSys_hub (s, h) ev
    rcases hst : stepSys (s, h) ev with ⟨st1, ds⟩
    rw [hst] at hstep
    have hrun : (runSys (s, h) (ev :: rest)).2 = ds ++ (runSys st1 rest).2 := by
      simp [runSys, hst]
    rw [hrun] at hd
    rcases List.mem_append.mp hd with hd1 | hd2
    · intro hcontra
      apply hmem
      rw [← hcontra]
      have := stepSys_targets (s, h) ev d (by rw [hst]; exact hd1)
      exact this
    · have hst1 : st1 = (st1.1, h) := by
        have : st1.2 = h := hstep
        rw [← this]
      rw [hst1] at hd2
      exact ih st1.1 h hmem d hd2

/-- C9: after unsubscribing, no later insert or clear ever invokes the
observer again (every delivery of every later mutation targets some other
listener), and unsubscribing an observer that is not registered leaves the
listener set unchanged. -/
theorem unsubscribed_never_notified (i : ListenerId) (h : HubState)
    (s : DBState) (evs : List SysEvent) :
    (∀ d ∈ (runSys (s, unsubscribe i h) evs).2, d.target ≠ i) ∧
    (i ∉ h.listeners → unsubscribe i h = h) := by
  constructor
  · exact runSys_avoids i evs s (unsubscribe i h)
      (not_mem_removeListener i h.listeners)
  · intro hmem
    unfold unsubscribe removeListener
    have : h.listeners.filter (fun j => j ≠ i) = h.listeners :=
      List.filter_eq_self.mpr (fun a ha => by
        simp
        intro hcontra
        exact hmem (hcontra ▸ ha))
    rw [this]

/-- Witness for C9: with listeners 7 and 3 registered, unsubscribing 7
and then running an insert and a clear delivers only to 3; unsubscribing 7
again changes nothing. -/
theorem unsubscribed_never_notified_witness :
    (∀ d ∈ (runSys (readyFreshDB, unsubscribe 7 ⟨[7, 3]⟩)
        [.insertEv true demoDraft, .clearEv true]).2, d.target ≠ 7) ∧
    unsubscribe 7 ⟨[3]⟩ = ⟨[3]⟩ :=
  ⟨(unsubscribed_never_notified 7 ⟨[7, 3]⟩ readyFreshDB
      [.insertEv true demoDraft, .clearEv true]).1,
   (unsubscribed_never_notified 7 ⟨[3]⟩ readyFreshDB []).2 (by decide)⟩

/-- C8: subscribing on a live store registers the observer, immediately
schedules a delivery of the current full ordered log set to that observer
(subscribing against the empty fresh store delivers the empty sequence),
and the returned handle removes the observer again. -/
theorem subscribe_registers_and_delivers (i : ListenerId) (h : HubState)
    (s : DBState) (hOpen : s.dbOpen = true) :
    i ∈ (subscribe i h s).1.listeners ∧
    (subscribe i h s).2 = some { target := i, logs := scanRecords s.records } ∧
    (subscribe i h readyFreshDB).2 = some { target := i, logs := [] } ∧
    i ∉ (unsubscribe i (subscribe i h s).1).listeners := by
  have hscan : (getAllLogs .openOk true s).1 = .ok (scanRecords s.records) := by
    simp [getAllLogs, getDB, hOpen]
  refine ⟨?_, ?_, ?_, ?_⟩
  · unfold subscribe
    rw [hscan]
    exact mem_addListener i h.listeners
  · unfold subscribe
    rw [hscan]
  · rfl
  · unfold subscribe
    rw [hscan]
    exact not_mem_removeListener i _

/-- Witness for C8 at a concrete store: subscriber 1 is registered, gets
the three demo records newest first, and the handle removes it. -/
theorem subscribe_registers_and_delivers_witness :
    demoDB.dbOpen = true ∧
    (subscribe 1 ⟨[]⟩ demoDB).2 =
      some { target := 1, logs := scanRecords demoDB.records } ∧
    1 ∈ (subscribe 1 ⟨[]⟩ demoDB).1.listeners :=
  ⟨rfl, (subscribe_registers_and_delivers 1 ⟨[]⟩ demoDB rfl).2.1,
   (subscribe_registers_and_delivers 1 ⟨[]⟩ demoDB rfl).1⟩

/-- Calling a channel hands saveLog exactly one draft per wrapper layer. -/
theorem callChannel_length (f : ConsoleFn) (args : List JSValue) (now : Nat) :
    (callChannel f args now).length = interceptionLayers f := by
  induction f with
  | native n => rfl
  | wrapped lvl inner ih => simp [callChannel, interceptionLayers, ih]

/-- C3 (code evaluated at the failing configuration): once
initGlobalLogger has run, the channel notifyListeners uses to report a
scan failure is the current console.warn, which is the installed wrapper —
calling it re-enters the interception layer (and saveLog) — whereas the
channel saveLog's own catch block uses is the stashed pre-interception
error function, with zero wrapper layers. -/
theorem notify_failure_reenters_interception :
    reentersInterception (notifyFailureChannel (initGlobalLogger freshConsole)) = true ∧
    notifyFailureChannel (initGlobalLogger freshConsole) =
      .wrapped .WARN (.native "warn") ∧
    (saveLogFailureChannel (initGlobalLogger freshConsole)).map interceptionLayers =
      some 0 :=
  ⟨rfl, rfl, rfl⟩

/-- C4: a capture through the error channel whose first argument is an
Error instance takes message from the error's message and stackTrace from
its stack when present, at level ERROR; logError behaves the same; in
particular an error with message boom and stack at foo() yields exactly
that record. -/
theorem error_capture_message_and_stack :
    (∀ (m : String) (st : Option String) (rest : List JSValue) (now : Nat),
      interceptErrorArgs (.vError m st :: rest) now =
        { timestamp := now, level := .ERROR, message := m, stackTrace := st
          metadata := if rest.isEmpty then none else some (.vArray rest) }) ∧
    (∀ (m : String) (st : Option String) (meta : Option JSValue) (now : Nat),
      logErrorDraft (.err m st) meta now =
        { timestamp := now, level := .ERROR, message := m, stackTrace := st
          metadata := meta }) ∧
    interceptErrorArgs [.vError "boom" (some "at foo()")] 0 =
      { timestamp := 0, level := .ERROR, message := "boom"
        stackTrace := some "at foo()", metadata := none } := by
  refine ⟨fun m st rest now => ?_, fun m st meta now => rfl, rfl⟩
  cases rest <;> simp [interceptErrorArgs]

/-- Counterexample for C5 as stated: the number 0 is not error-like, its
string representation is the string 0, yet capturing it through the
warning channel stores the empty string as the message (the interceptor
tests args[0] for truthiness before coercing, and 0 is falsy). -/
theorem basic_capture_not_string_representation :
    (interceptArgsBasic .WARN [.vNumber 0] 0).message = "" ∧
    jsToString (.vNumber 0) = "0" ∧
    (interceptArgsBasic .WARN [.vNumber 0] 0).message ≠ jsToString (.vNumber 0) := by
  refine ⟨rfl, rfl, ?_⟩
  intro h
  exact absurd h (by decide)

/-- C5 amended: for a non-error-like primary value the log/warn channels
store its string representation when it is truthy and the empty string
when it is falsy; stackTrace is never set; the auxiliary values are
attached verbatim as metadata exactly when at least one is present; the
hello capture with one auxiliary object at warning level yields the record
the spec names. -/
theorem basic_capture_amended :
    (∀ (lvl : LogLevel) (args : List JSValue) (now : Nat),
      (interceptArgsBasic lvl args now).level = lvl ∧
      (interceptArgsBasic lvl args now).timestamp = now ∧
      (interceptArgsBasic lvl args now).message =
        (if jsTruthy (args.headD .vUndefined)
         then jsToString (args.headD .vUndefined) else "") ∧
      (interceptArgsBasic lvl args now).stackTrace = none ∧
      (interceptArgsBasic lvl args now).metadata =
        (if args.length > 1 then some (.vArray (args.drop 1)) else none)) ∧
    interceptArgsBasic .WARN
        [.vString "hello", .vObject [("user", .vString "admin")]] 0 =
      { timestamp := 0, level := .WARN, message := "hello", stackTrace := none
        metadata := some (.vArray [.vObject [("user", .vString "admin")]]) } :=
  ⟨fun _ _ _ => ⟨rfl, rfl, rfl, rfl, rfl⟩, rfl⟩

/-- Counterexample for C6 as stated: initGlobalLogger is neither
idempotent nor guarded — running it twice yields a different console state
than running it once, and a single console.log call after the second run
hands saveLog two drafts, persisting the event twice. -/
theorem reinstall_duplicates_capture :
    initGlobalLogger (initGlobalLogger freshConsole) ≠ initGlobalLogger freshConsole ∧
    (callChannel (initGlobalLogger (initGlobalLogger freshConsole)).log
      [.vString "x"] 0).length = 2 :=
  ⟨by decide, rfl⟩

/-- C6 amended: the program installs the interceptors exactly once, at
startup; after that single installation a captured call on any of the
three channels produces exactly one persisted draft.  The function itself
has no guard: every further installation adds one wrapper layer, and a
single captured call then produces one additional draft per extra
installation. -/
theorem initGlobalLogger_single_install :
    (∀ (args : List JSValue) (now : Nat),
      (callChannel (initGlobalLogger freshConsole).log args now).length = 1 ∧
      (callChannel (initGlobalLogger freshConsole).warn args now).length = 1 ∧
      (callChannel (initGlobalLogger freshConsole).error args now).length = 1) ∧
    (∀ (c : ConsoleState) (args : List JSValue) (now : Nat),
      (callChannel (initGlobalLogger c).log args now).length =
        (callChannel c.log args now).length + 1) := by
  constructor
  · intro args now
    exact ⟨(callChannel_length _ args now).trans rfl,
      (callChannel_length _ args now).trans rfl,
      (callChannel_length _ args now).trans rfl⟩
  · intro c args now
    simp [initGlobalLogger, callChannel]
